import Mathlib

/-! QuakeLens dashboard: a shallow embedding of `src/App.js`

The React module is embedded as pure functions.  A component becomes a
function from its props to the element tree it returns, the three `useState`
cells of `OmegaDashboard` become one record, and the two `onClick` handlers
become state transformers.  The seeded arrays are transcribed literally.

Conventions of the embedding:

* numbers that the source writes as integer literals are `Int`;
* the latitude/longitude literals are kept in units of 10⁻⁴ degree;
* a prop value is recorded as the text it prints to, a `style` object as one
  prop per field (`style.width`), and `key` as a prop of host elements (the
  `key` of a `GlassCard` call is consumed by React and never reaches the
  component);
* `undefined` props are `none`; a `cond && <X/>` child is an `Option`.
-/

namespace QuakeLens

/-! ## Element trees -/

/-- Element tree returned by a component: a text child, or an element with its
tag (or the name of an external component), its props and its children. -/
inductive Node where
  | text : String → Node
  | el : String → List (String × String) → List Node → Node

mutual
/-- Text children of a tree, in document order. -/
def Node.texts : Node → List String
  | .text s => [s]
  | .el _ _ kids => Node.textsList kids
/-- Text children of a list of trees, in document order. -/
def Node.textsList : List Node → List String
  | [] => []
  | k :: ks => k.texts ++ Node.textsList ks
end

/-- Value of a prop of the root element, if it has that prop. -/
def Node.prop? : Node → String → Option String
  | .text _, _ => none
  | .el _ props _, name => (props.find? (fun p => p.1 == name)).map (fun p => p.2)

/-- Children of the root element. -/
def Node.kids : Node → List Node
  | .text _ => []
  | .el _ _ ks => ks

/-- Children that survive React's rendering of `cond && <X/>`: `false` renders nothing. -/
def rendered (children : List (Option Node)) : List Node :=
  children.filterMap id

/-! ## JavaScript helpers used by the module -/

/-- Template-literal printing of a possibly undefined string, as in `${className}`. -/
def template (v : Option String) : String :=
  match v with
  | some s => s
  | none => "undefined"

/-- Search of a character list for a sublist, position by position. -/
def includesAt : List Char → List Char → Bool
  | [], sub => sub.isEmpty
  | c :: cs, sub => sub.isPrefixOf (c :: cs) || includesAt cs sub

/-- `String.prototype.includes`. -/
def includes (s sub : String) : Bool :=
  includesAt s.data sub.data

/-- `Array.prototype.slice(a, b)` for non-negative indices. -/
def slice {α : Type} (xs : List α) (a b : Nat) : List α :=
  (xs.drop a).take (b - a)

/-- `Array.prototype.map` with the index passed as second argument. -/
def mapWithIndex {α β : Type} (xs : List α) (f : α → Nat → β) : List β :=
  xs.enum.map (fun p => f p.2 p.1)

/-! ## Data seeding -/

/-- Entry of `SECTOR_DATA`. -/
structure Sector where
  id : String
  label : String
  risk : Int
  nodes : Int
  status : String
  color : String
  pos : Nat × Nat
deriving DecidableEq, Repr

/-- `SECTOR_DATA` (App.js lines 13-17); positions in units of 10⁻⁴ degree. -/
def SECTOR_DATA : List Sector := [
  { id := "S-07", label := "Connaught", risk := 84, nodes := 1240, status := "CRITICAL",
    color := "#ef4444", pos := (286139, 772090) },
  { id := "S-12", label := "Govt Dist", risk := 42, nodes := 890, status := "WARNING",
    color := "#f59e0b", pos := (286239, 772190) },
  { id := "S-02", label := "East Res", risk := 12, nodes := 2100, status := "STABLE",
    color := "#22c55e", pos := (286039, 771990) }
]

/-- Entry of `INTEGRITY_TRENDS`. -/
structure Trend where
  t : String
  v : Int
deriving DecidableEq, Repr

/-- `INTEGRITY_TRENDS` (App.js line 19). -/
def INTEGRITY_TRENDS : List Trend := [
  { t := "08:00", v := 95 }, { t := "09:00", v := 82 }, { t := "10:00", v := 45 },
  { t := "11:00", v := 38 }, { t := "12:00", v := 32 }
]

/-- Entry of `MISSION_LOGS`. -/
structure Mission where
  id : String
  task : String
  progress : Int
  priority : String
deriving DecidableEq, Repr

/-- `MISSION_LOGS` (App.js lines 20-24). -/
def MISSION_LOGS : List Mission := [
  { id := "M-1", task := "Evacuate Sector 7", progress := 65, priority := "High" },
  { id := "M-2", task := "Medical Drop: Sector 12", progress := 30, priority := "Critical" },
  { id := "M-3", task := "UAV Mapping: East", progress := 100, priority := "Normal" }
]

/-! ## `GlassCard` -/

/-- Props a caller may pass to `GlassCard`.  The component destructures
`children`, `title`, `icon` and `className`; `style` is passed by two callers. -/
structure GlassCardProps where
  children : List Node := []
  title : Option String := none
  icon : Option String := none
  className : Option String := none
  style : List (String × String) := []

/-- The header block `title && (...)` of `GlassCard` (App.js lines 29-34). -/
def GlassCard.header (title icon : Option String) : List Node :=
  match title with
  | none => []
  | some t =>
    if t = "" then []
    else
      [ .el "div"
          [("className", "flex items-center gap-3 mb-6 border-b border-slate-100 dark:border-white/5 pb-4")]
          ((match icon with
            | some ic => [Node.el ic [("size", "18"), ("className", "text-cyan-600")] []]
            | none => []) ++
           [ .el "h3"
               [("className", "text-[10px] font-black uppercase tracking-[0.3em] text-slate-500 dark:text-slate-400")]
               [.text t] ]) ]

/-- `GlassCard` (App.js lines 27-37). -/
def GlassCard (p : GlassCardProps) : Node :=
  .el "div"
    [("className",
      "bg-white dark:bg-slate-900 border border-slate-200 dark:border-slate-800 rounded-[2.5rem] p-6 shadow-xl relative overflow-hidden transition-all duration-300 "
        ++ template p.className)]
    (GlassCard.header p.title p.icon ++ p.children)

/-! ## Tab 1: `HomeOverview` -/

/-- Entry of the KPI array written inline in `HomeOverview`. -/
structure Kpi where
  l : String
  v : String
  c : String
  i : String
deriving DecidableEq, Repr

/-- The KPI array of `HomeOverview` (App.js lines 44-49). -/
def KPI_STATS : List Kpi := [
  { l := "Structural Failures", v := "142", c := "text-red-500", i := "AlertTriangle" },
  { l := "Mesh Connectivity", v := "94%", c := "text-cyan-600", i := "Radio" },
  { l := "Lives Secured", v := "2.4k", c := "text-green-600", i := "CheckCircle2" },
  { l := "Triage Coverage", v := "82%", c := "text-yellow-600", i := "TrendingUp" }
]

/-- The `borderLeftColor` computed for a KPI tile (App.js line 50). -/
def kpiBorderColor (stat : Kpi) : String :=
  if includes stat.c "red" then "#ef4444"
  else if includes stat.c "cyan" then "#0891b2"
  else if includes stat.c "green" then "#16a34a"
  else "#ca8a04"

/-- Props of the `GlassCard` call for a KPI tile (App.js lines 50-58). -/
def kpiTileProps (stat : Kpi) : GlassCardProps :=
  { className := some "border-l-4",
    style := [("borderLeftColor", kpiBorderColor stat)],
    children := [
      .el "div" [("className", "flex items-center gap-4")] [
        .el stat.i [("size", "28"), ("className", stat.c)] [],
        .el "div" [] [
          .el "p" [("className", "text-[9px] font-black text-slate-400 uppercase tracking-widest leading-none mb-1")]
            [.text stat.l],
          .el "p" [("className", "text-2xl font-mono font-black " ++ stat.c)] [.text stat.v] ] ] ] }

/-- A KPI tile. -/
def kpiTile (stat : Kpi) : Node :=
  GlassCard (kpiTileProps stat)

/-- The chart card "City-Wide Stability index" (App.js lines 64-76). -/
def stabilityCard : Node :=
  GlassCard
    { title := some "City-Wide Stability index", icon := some "Activity", className := some "col-span-8",
      children := [
        .el "div" [("className", "h-72 w-full")] [
          .el "ResponsiveContainer" [("width", "100%"), ("height", "100%")] [
            .el "AreaChart"
              [("data", String.intercalate "," (INTEGRITY_TRENDS.map (fun p => p.t ++ "=" ++ toString p.v)))] [
              .el "defs" [] [
                .el "linearGradient" [("id", "gr"), ("x1", "0"), ("y1", "0"), ("x2", "0"), ("y2", "1")] [
                  .el "stop" [("offset", "5%"), ("stopColor", "#06b6d4"), ("stopOpacity", "0.2")] [],
                  .el "stop" [("offset", "95%"), ("stopColor", "#06b6d4"), ("stopOpacity", "0")] [] ] ],
              .el "XAxis" [("dataKey", "t"), ("stroke", "#94a3b8"), ("fontSize", "10"),
                           ("axisLine", "false"), ("tickLine", "false")] [],
              .el "YAxis" [("hide", "true")] [],
              .el "Area" [("type", "monotone"), ("dataKey", "v"), ("stroke", "#06b6d4"),
                          ("fill", "url(#gr)"), ("strokeWidth", "4")] [],
              .el "Tooltip" [] [] ] ] ] ] }

/-- The tasks shown by "Mission Progress": `MISSION_LOGS.slice(0, 3)` (App.js line 80). -/
def homeMissions : List Mission :=
  slice MISSION_LOGS 0 3

/-- One row of "Mission Progress" (App.js lines 81-89). -/
def missionRow (m : Mission) (i : Nat) : Node :=
  .el "div" [("key", toString i), ("className", "space-y-2")] [
    .el "div" [("className", "flex justify-between text-[10px] font-black uppercase tracking-tighter")] [
      .el "span" [("className", "text-slate-500")] [.text m.task],
      .el "span" [("className", "text-cyan-600")] [.text (toString m.progress), .text "%"] ],
    .el "div" [("className", "h-1 w-full bg-slate-100 rounded-full overflow-hidden")] [
      .el "div" [("className", "h-full bg-cyan-500"), ("style.width", toString m.progress ++ "%")] [] ] ]

/-- The rows of "Mission Progress" (App.js lines 80-90). -/
def missionRows : List Node :=
  mapWithIndex homeMissions missionRow

/-- The width of the progress bar inside a row of "Mission Progress". -/
def barWidth (row : Node) : Option String :=
  match row.kids with
  | [_, track] =>
    match track.kids with
    | [bar] => bar.prop? "style.width"
    | _ => none
  | _ => none

/-- The card "Mission Progress" (App.js lines 78-93). -/
def missionCard : Node :=
  GlassCard
    { title := some "Mission Progress", icon := some "Siren",
      className := some "col-span-4 flex flex-col justify-between",
      children := [
        .el "div" [("className", "space-y-6")] missionRows,
        .el "button"
          [("className", "w-full mt-6 py-3 bg-slate-900 text-white rounded-xl text-[9px] font-black uppercase tracking-widest")]
          [.text "Full Ops Log"] ] }

/-- Props of the `GlassCard` call for a sector tile (App.js lines 99-112). -/
def sectorTileProps (s : Sector) : GlassCardProps :=
  { className := some "p-4 border-b-4",
    style := [("borderBottomColor", s.color)],
    children := [
      .el "p" [("className", "text-[8px] font-black text-slate-400 uppercase tracking-[0.3em]")] [.text s.id],
      .el "h4" [("className", "text-sm font-black text-slate-700 uppercase tracking-tighter mb-4")] [.text s.label],
      .el "div" [("className", "flex justify-between items-end")] [
        .el "div" [] [
          .el "p" [("className", "text-[8px] font-bold text-slate-400 uppercase")] [.text "Risk"],
          .el "p" [("className", "text-xl font-mono font-black"), ("style.color", s.color)]
            [.text (toString s.risk), .text "%"] ],
        .el "div" [("className", "text-right")] [
          .el "p" [("className", "text-[8px] font-bold text-slate-400 uppercase")] [.text "Nodes"],
          .el "p" [("className", "text-xs font-mono font-bold text-slate-700")] [.text (toString s.nodes)] ] ] ] }

/-- A sector tile of "Regional Stats". -/
def sectorTile (s : Sector) : Node :=
  GlassCard (sectorTileProps s)

/-- The tiles of "Regional Stats": `SECTOR_DATA.map(...)` (App.js lines 98-113). -/
def sectorTiles : List Node :=
  SECTOR_DATA.map sectorTile

/-- `HomeOverview` (App.js lines 40-116). -/
def HomeOverview : Node :=
  .el "motion.div" [("initial.opacity", "0"), ("animate.opacity", "1"), ("className", "space-y-8 pb-20")] [
    .el "div" [("className", "grid grid-cols-4 gap-6")] (KPI_STATS.map kpiTile),
    .el "div" [("className", "grid grid-cols-12 gap-8")] [stabilityCard, missionCard],
    .el "div" [("className", "grid grid-cols-3 gap-8")] sectorTiles ]

/-! ## Tab 4: `DataIntelligence` -/

/-- Entry of the ingestion matrix written inline in `DataIntelligence`. -/
structure Source where
  n : String
  s : String
  l : String
  i : String
  c : String
deriving DecidableEq, Repr

/-- The ingestion matrix of `DataIntelligence` (App.js lines 123-128). -/
def INGESTION_MATRIX : List Source := [
  { n := "Sentinel-2 Satellite", s := "Synced", l := "100%", i := "Globe", c := "text-green-500" },
  { n := "UAV Swarm Alpha", s := "Active", l := "94%", i := "Wind", c := "text-cyan-500" },
  { n := "P2P Citizen Mesh", s := "Congested", l := "82%", i := "Radio", c := "text-yellow-500" },
  { n := "Govt Infrastructure", s := "Offline", l := "0%", i := "DatabaseZap", c := "text-red-500" }
]

/-- One row of the ingestion matrix (App.js lines 129-138). -/
def sourceRow (item : Source) (idx : Nat) : Node :=
  .el "div"
    [("key", toString idx),
     ("className", "flex justify-between items-center p-5 bg-slate-50 rounded-3xl border border-slate-100 group hover:border-cyan-500/30 transition-all")] [
    .el "div" [("className", "flex items-center gap-4")] [
      .el item.i [("size", "20"), ("className", item.c)] [],
      .el "div" [] [
        .el "p" [("className", "text-xs font-black text-slate-800 uppercase")] [.text item.n],
        .el "p" [("className", "text-[9px] text-slate-500 font-bold uppercase tracking-widest")] [.text item.s] ] ],
    .el "span" [("className", "text-sm font-mono text-slate-900 font-black")] [.text item.l] ]

/-- The rows of the ingestion matrix (App.js lines 123-139). -/
def sourceRows : List Node :=
  mapWithIndex INGESTION_MATRIX sourceRow

/-- `DataIntelligence` (App.js lines 119-158). -/
def DataIntelligence : Node :=
  .el "motion.div"
    [("initial.opacity", "0"), ("initial.x", "20"), ("animate.opacity", "1"), ("animate.x", "0"),
     ("className", "grid grid-cols-2 gap-8 h-full pb-20")] [
    GlassCard
      { title := some "Multi-Source Ingestion Matrix", icon := some "Database",
        children := [.el "div" [("className", "space-y-4")] sourceRows] },
    .el "div" [("className", "flex flex-col gap-8")] [
      GlassCard
        { title := some "AI Signal Analysis", icon := some "Zap",
          children := [
            .el "div" [("className", "flex flex-col items-center justify-center h-48 text-center")] [
              .el "Activity" [("size", "48"), ("className", "text-cyan-500 mb-4 animate-pulse")] [],
              .el "p" [("className", "text-xs font-mono text-slate-500")] [.text "PROCESSING_TELEMETRY: 104Hz"],
              .el "p" [("className", "text-[10px] text-slate-400 mt-2 italic font-serif")]
                [.text "Synthesizing FFT Spectral Peaks for Structural Triage..."] ] ] },
      .el "div"
        [("className", "flex-1 bg-slate-900 rounded-[3rem] p-10 flex flex-col items-center justify-center text-center text-white border-4 border-white shadow-2xl")] [
        .el "ShieldCheck" [("size", "40"), ("className", "text-green-400 mb-4")] [],
        .el "h4" [("className", "text-sm font-black uppercase tracking-[0.4em]")] [.text "Encrypted_Hub_Link"],
        .el "p" [("className", "text-[9px] text-slate-500 mt-2 uppercase font-bold tracking-widest")]
          [.text "AES-256 Tunnel Established"] ] ] ]

/-! ## Main shell: `OmegaDashboard` -/

/-- Entry of the `logs` state. -/
structure LogEntry where
  t : String
  n : String
  m : String
deriving DecidableEq, Repr

/-- Initial value of the `logs` state (App.js lines 164-168). -/
def INITIAL_LOGS : List LogEntry := [
  { t := "12:04", n := "X788", m := "Structural Pulse: 34% Integrity Drop" },
  { t := "12:03", n := "UAV-1", m := "Sector 7 Thermal Scan Complete" },
  { t := "11:58", n := "SAT-L", m := "Change Detection: Zone 4 Red-Tagged" }
]

/-- The three `useState` cells of `OmegaDashboard` (App.js lines 162-168). -/
structure State where
  activeTab : String
  dark : Bool
  logs : List LogEntry
deriving DecidableEq, Repr

/-- State of the first render: the arguments of the three `useState` calls. -/
def State.initial : State :=
  { activeTab := "HOME", dark := false, logs := INITIAL_LOGS }

/-- Entry of the navigation array written inline in the sidebar. -/
structure NavItem where
  id : String
  icon : String
  label : String
deriving DecidableEq, Repr

/-- The navigation array of the sidebar (App.js lines 180-185). -/
def NAV_ITEMS : List NavItem := [
  { id := "HOME", icon := "Activity", label := "Overview" },
  { id := "GIS", icon := "MapIcon", label := "Tactical GIS" },
  { id := "PLAN", icon := "Cpu", label := "AI Operations" },
  { id := "INTELLIGENCE", icon := "Database", label := "Intelligence" }
]

/-- Handler `() => setActiveTab(item.id)` of a navigation button (App.js line 186). -/
def navOnClick (item : NavItem) (s : State) : State :=
  { s with activeTab := item.id }

/-- Handler `() => setDark(!dark)` of the theme button (App.js line 192). -/
def themeOnClick (s : State) : State :=
  { s with dark := !s.dark }

/-- The operator's actions: the elements of the module that carry an `onClick`. -/
inductive Action where
  | selectTab (item : NavItem)
  | toggleTheme
deriving DecidableEq, Repr

/-- An action is available when its button is rendered: one navigation button
per entry of `NAV_ITEMS`, and the theme button. -/
def Action.available : Action → Bool
  | .selectTab item => decide (item ∈ NAV_ITEMS)
  | .toggleTheme => true

/-- Effect of an action on the state. -/
def step (s : State) : Action → State
  | .selectTab item => navOnClick item s
  | .toggleTheme => themeOnClick s

/-- Effect of a sequence of actions, first action first. -/
def run (s : State) : List Action → State
  | [] => s
  | a :: as => run (step s a) as

/-- States the dashboard can be in: the initial one, and those an available
action leads to from a reachable state. -/
inductive Reachable : State → Prop where
  | initial : Reachable State.initial
  | next {s : State} (a : Action) : Reachable s → a.available = true → Reachable (step s a)

/-- A navigation button (App.js lines 186-189). -/
def navButton (activeTab : String) (item : NavItem) : Node :=
  .el "button"
    [("key", item.id),
     ("className",
      "w-full flex items-center gap-4 px-6 py-5 rounded-2xl transition-all duration-300 text-[10px] font-black uppercase tracking-widest "
        ++ (if activeTab = item.id then "bg-cyan-600/10 text-cyan-600 border border-cyan-600/20 shadow-sm"
            else "text-slate-500 hover:bg-slate-50 dark:hover:bg-white/5"))] [
    .el item.icon [("size", "20")] [],
    .text item.label ]

/-- The sidebar (App.js lines 174-195). -/
def sidebar (s : State) : Node :=
  .el "aside"
    [("className", "w-64 bg-white dark:bg-slate-950 border-r border-slate-200 dark:border-white/5 flex flex-col py-10 z-50 shadow-2xl")] [
    .el "div" [("className", "px-8 mb-16 flex items-center gap-4")] [
      .el "div" [("className", "p-3 bg-cyan-600 rounded-2xl shadow-xl shadow-cyan-600/20")] [
        .el "ShieldAlert" [("size", "24"), ("className", "text-white")] [] ],
      .el "h1"
        [("className", "font-black italic text-xl text-slate-900 dark:text-white uppercase tracking-widest leading-none font-serif")]
        [.text "QuakeLens"] ],
    .el "nav" [("className", "flex-1 px-4 space-y-2")] (NAV_ITEMS.map (navButton s.activeTab)),
    .el "button"
      [("className", "mt-auto mx-8 p-4 rounded-2xl bg-slate-100 dark:bg-white/5 text-slate-400 hover:text-cyan-600 transition-all flex justify-center")] [
      if s.dark then .el "Sun" [("size", "24")] [] else .el "Moon" [("size", "24")] [] ] ]

/-- The header of the main area (App.js lines 199-205). -/
def header : Node :=
  .el "header"
    [("className", "h-24 border-b border-slate-200 dark:border-white/5 flex justify-between items-center px-12 bg-white/60 dark:bg-slate-950/40 backdrop-blur-xl z-40")] [
    .el "div" [] [
      .el "h1"
        [("className", "text-2xl font-black italic uppercase text-slate-900 dark:text-white tracking-widest leading-none")] [
        .text "OMEGA-C2 ",
        .el "span" [("className", "text-cyan-600 opacity-60 font-light underline underline-offset-8")] [.text "COMMAND"] ],
      .el "p" [("className", "text-[9px] font-black text-slate-500 uppercase tracking-[0.4em] mt-3")]
        [.text "Strategic Status: Operational // New Delhi Sector"] ],
    .el "button"
      [("className", "bg-red-600 text-white px-8 py-4 rounded-2xl text-[10px] font-black uppercase tracking-widest shadow-xl shadow-red-600/20 active:scale-95 transition-all")]
      [.text "Broadcast SOS"] ]

/-- A sector circle of the map (App.js lines 216-218). -/
def sectorCircle (s : Sector) : Node :=
  .el "Circle"
    [("key", s.id), ("center", toString s.pos.1 ++ "," ++ toString s.pos.2), ("radius", "850"),
     ("pathOptions.color", "white"), ("pathOptions.weight", "1"),
     ("pathOptions.fillColor", s.color), ("pathOptions.fillOpacity", "0.6")] [
    .el "Popup" [] [
      .el "div" [("className", "text-xs font-mono uppercase font-bold tracking-tighter")] [
        .el "strong" [] [.text s.label],
        .el "br" [] [],
        .text "Risk: ", .text (toString s.risk), .text "%" ] ] ]

/-- The circles of the map: `SECTOR_DATA.map(...)` (App.js lines 215-219). -/
def sectorCircles : List Node :=
  SECTOR_DATA.map sectorCircle

/-- The GIS panel (App.js lines 212-221). -/
def gisPanel : Node :=
  .el "motion.div"
    [("key", "g"), ("initial.opacity", "0"), ("animate.opacity", "1"),
     ("className", "h-[750px] w-full bg-slate-900 rounded-[3rem] overflow-hidden relative shadow-2xl border-4 border-slate-200 dark:border-white/5 mb-20")] [
    .el "MapContainer"
      [("center", "286139,772090"), ("zoom", "13"), ("zoomControl", "false"), ("style.height", "100%")]
      (.el "TileLayer"
          [("url", "https://server.arcgisonline.com/ArcGIS/rest/services/World_Imagery/MapServer/tile/{z}/{y}/{x}")] []
        :: sectorCircles) ]

/-- Props of the `GlassCard` call for a mission of the PLAN tab (App.js lines 226-232). -/
def planCardProps (t : Mission) : GlassCardProps :=
  { className := some "flex justify-between items-center p-8 group hover:border-cyan-500/30 transition-all cursor-pointer",
    children := [
      .el "div" [] [
        .el "span"
          [("className",
            "text-[8px] font-black px-2 py-1 rounded uppercase tracking-widest "
              ++ (if t.priority = "Critical" then "bg-red-500 text-white" else "bg-cyan-600/10 text-cyan-600"))]
          [.text t.priority],
        .el "h4" [("className", "text-slate-800 dark:text-white text-lg font-black uppercase mt-2 italic tracking-tight")]
          [.text t.task] ],
      .el "div" [("className", "flex items-center gap-10")] [
        .el "div" [("className", "text-right")] [
          .el "p" [("className", "text-[10px] opacity-40 font-bold uppercase tracking-widest")] [.text "Progress"],
          .el "p" [("className", "text-2xl font-mono font-black text-cyan-600")]
            [.text (toString t.progress), .text "%"] ],
        .el "ChevronRight" [("size", "20"), ("className", "opacity-20 group-hover:opacity-100 transition-opacity")] [] ] ] }

/-- A mission card of the PLAN tab; the index is used only as `key`. -/
def planCard (t : Mission) (_i : Nat) : Node :=
  GlassCard (planCardProps t)

/-- The mission cards of the PLAN tab: `MISSION_LOGS.map(...)` (App.js lines 225-233). -/
def planCards : List Node :=
  mapWithIndex MISSION_LOGS planCard

/-- The PLAN panel (App.js lines 224-234). -/
def planPanel : Node :=
  .el "motion.div" [("key", "p"), ("initial.opacity", "0"), ("animate.opacity", "1"), ("className", "space-y-6")]
    planCards

/-- The four guarded children of `AnimatePresence`, in source order
(App.js lines 209-235): `activeTab === '...' && <panel/>`. -/
def mainPanels (activeTab : String) : List (Option Node) := [
  if activeTab = "HOME" then some HomeOverview else none,
  if activeTab = "INTELLIGENCE" then some DataIntelligence else none,
  if activeTab = "GIS" then some gisPanel else none,
  if activeTab = "PLAN" then some planPanel else none
]

/-- One item of the telemetry feed (App.js lines 245-251). -/
def feedItem (log : LogEntry) (i : Nat) : Node :=
  .el "motion.div"
    [("initial.opacity", "0"), ("initial.x", "20"), ("animate.opacity", "1"), ("animate.x", "0"),
     ("key", toString i),
     ("className", "p-5 bg-slate-50 dark:bg-white/5 rounded-[2rem] border border-slate-200 dark:border-white/5 group hover:border-cyan-500/30 transition-all cursor-default shadow-sm")] [
    .el "div" [("className", "flex justify-between items-center mb-2")] [
      .el "span" [("className", "text-cyan-600 font-mono font-black text-[10px]")]
        [.text "[", .text log.t, .text "]"],
      .el "span" [("className", "text-[9px] font-black text-slate-400 uppercase tracking-widest text-white tracking-tighter underline")]
        [.text "NODE_778X"] ],
    .el "p" [("className", "text-xs text-slate-700 dark:text-slate-300 italic font-medium leading-relaxed tracking-tight uppercase font-mono")]
      [.text log.m] ]

/-- The items of the telemetry feed: `logs.map(...)` (App.js lines 244-252). -/
def feed (logs : List LogEntry) : List Node :=
  mapWithIndex logs feedItem

/-- The telemetry panel (App.js lines 241-254). -/
def telemetry (s : State) : Node :=
  .el "aside"
    [("className", "w-96 bg-white dark:bg-slate-950 border-l border-slate-200 dark:border-white/5 flex flex-col p-8 overflow-hidden z-50")] [
    .el "h3" [("className", "text-[10px] font-black uppercase tracking-[0.3em] text-slate-400 mb-8 flex items-center gap-3")] [
      .el "Siren" [("size", "14"), ("className", "text-cyan-600 animate-bounce")] [],
      .text " Tactical Telemetry" ],
    .el "div" [("className", "flex-1 overflow-y-auto space-y-6 pr-2 scrollbar-hide")] (feed s.logs) ]

/-- `OmegaDashboard`: the element tree returned for a state (App.js lines 170-257). -/
def OmegaDashboard (s : State) : Node :=
  .el "div"
    [("className",
      (if s.dark then "dark" else "")
        ++ " h-screen w-screen bg-[#F1F5F9] dark:bg-[#020617] text-slate-900 dark:text-slate-200 flex overflow-hidden transition-all duration-500 font-sans")] [
    sidebar s,
    .el "div" [("className", "flex-1 flex flex-col min-w-0")] [
      header,
      .el "main" [("className", "flex-1 overflow-y-auto p-12 relative hide-scrollbar")] [
        .el "AnimatePresence" [("mode", "wait")] (rendered (mainPanels s.activeTab)) ] ],
    telemetry s ]

/-! ## Readings used to state the properties -/

/-- Lexicographic order on strings by character code, the order of the
JavaScript string comparison on the ASCII identifiers of the module. -/
def strLt (a b : String) : Prop :=
  a.data < b.data

instance strLt.decidable (a b : String) : Decidable (strLt a b) :=
  inferInstanceAs (Decidable (a.data < b.data))

/-- Decimal value of a digit character. -/
def digitValue (c : Char) : Option Nat :=
  if '0' ≤ c ∧ c ≤ '9' then some (c.toNat - '0'.toNat) else none

/-- Value of the leading decimal digits of a character list, continuing from `acc`. -/
def leadingDigits : List Char → Nat → Nat
  | [], acc => acc
  | c :: cs, acc =>
    match digitValue c with
    | some d => leadingDigits cs (acc * 10 + d)
    | none => acc

/-- The integer in a percent label such as `94%`: the value `parseInt` reads. -/
def labelPercent (l : String) : Nat :=
  leadingDigits l.data 0

/-- A timestamp `HH:MM` read as minutes of the day. -/
def minutesOfDay (t : String) : Nat :=
  leadingDigits (t.data.takeWhile (fun c => c != ':')) 0 * 60
    + leadingDigits ((t.data.dropWhile (fun c => c != ':')).drop 1) 0

/-- Severity rank of a priority: Critical above High above Normal. -/
def severity (priority : String) : Nat :=
  if priority = "Critical" then 2 else if priority = "High" then 1 else 0

/-- Mission `a` may stand directly before mission `b` in a list ordered by
severity descending, ties broken by ascending id. -/
def missionBefore (a b : Mission) : Prop :=
  severity b.priority < severity a.priority ∨
    (severity a.priority = severity b.priority ∧ strLt a.id b.id)

instance missionBefore.decidable : DecidableRel missionBefore :=
  fun a b => inferInstanceAs (Decidable (severity b.priority < severity a.priority ∨
    (severity a.priority = severity b.priority ∧ strLt a.id b.id)))

/-- Sector `a` may stand directly before sector `b` in a list ordered by risk
descending, ties broken by ascending id. -/
def sectorBefore (a b : Sector) : Prop :=
  b.risk < a.risk ∨ (a.risk = b.risk ∧ strLt a.id b.id)

instance sectorBefore.decidable : DecidableRel sectorBefore :=
  fun a b => inferInstanceAs (Decidable (b.risk < a.risk ∨ (a.risk = b.risk ∧ strLt a.id b.id)))

/-- Log entry `a` is at least as recent as log entry `b`. -/
def notOlder (a b : LogEntry) : Prop :=
  minutesOfDay b.t ≤ minutesOfDay a.t

instance notOlder.decidable : DecidableRel notOlder :=
  fun a b => inferInstanceAs (Decidable (minutesOfDay b.t ≤ minutesOfDay a.t))

/-- The navigation entry of the GIS tab. -/
def gisItem : NavItem :=
  { id := "GIS", icon := "MapIcon", label := "Tactical GIS" }

/-- The navigation entry of the PLAN tab. -/
def planItem : NavItem :=
  { id := "PLAN", icon := "Cpu", label := "AI Operations" }

/-! ## Invariants of the state machine -/

/-- The handlers never write the `logs` cell. -/
theorem step_logs (s : State) (a : Action) : (step s a).logs = s.logs := by
  cases a <;> rfl

/-- No sequence of actions writes the `logs` cell. -/
theorem run_logs (s : State) (acts : List Action) : (run s acts).logs = s.logs := by
  induction acts generalizing s with
  | nil => rfl
  | cons a rest ih => exact (ih (step s a)).trans (step_logs s a)

/-- The theme handler never writes the `activeTab` cell. -/
theorem themeOnClick_activeTab (s : State) : (themeOnClick s).activeTab = s.activeTab :=
  rfl

/-- In every reachable state the log list is the initial one. -/
theorem reachable_logs {s : State} (h : Reachable s) : s.logs = INITIAL_LOGS := by
  induction h with
  | initial => rfl
  | next a _ _ ih => rw [step_logs]; exact ih

/-- In every reachable state the active tab is the id of a navigation entry. -/
theorem reachable_activeTab {s : State} (h : Reachable s) :
    s.activeTab ∈ NAV_ITEMS.map (fun item => item.id) := by
  induction h with
  | initial => decide
  | next a _ hav ih =>
    cases a with
    | selectTab item =>
      have hmem : item ∈ NAV_ITEMS := of_decide_eq_true hav
      exact List.mem_map_of_mem (fun item => item.id) hmem
    | toggleTheme => exact ih

/-- A sequence of available actions leads from a reachable state to a reachable state. -/
theorem reachable_run {s : State} (h : Reachable s) (acts : List Action)
    (hav : ∀ a ∈ acts, a.available = true) : Reachable (run s acts) := by
  induction acts generalizing s with
  | nil => exact h
  | cons a rest ih =>
    exact ih (Reachable.next a h (hav a (List.mem_cons_self a rest)))
      (fun b hb => hav b (List.mem_cons_of_mem a hb))

/-! ## The claims -/

/-- C1: for every sector of `SECTOR_DATA` the stored status is the
classification of its risk (CRITICAL iff risk ≥ 70, WARNING iff 40 ≤ risk < 70,
STABLE iff risk < 40), and two seeded sectors of equal risk have equal status. -/
theorem sector_status_classifies_risk (s t : Sector)
    (hs : s ∈ SECTOR_DATA) (ht : t ∈ SECTOR_DATA) :
    (s.status = "CRITICAL" ↔ 70 ≤ s.risk) ∧
    (s.status = "WARNING" ↔ 40 ≤ s.risk ∧ s.risk < 70) ∧
    (s.status = "STABLE" ↔ s.risk < 40) ∧
    (s.risk = t.risk → s.status = t.status) := by
  have key : ∀ a ∈ SECTOR_DATA, ∀ b ∈ SECTOR_DATA,
      (a.status = "CRITICAL" ↔ 70 ≤ a.risk) ∧
      (a.status = "WARNING" ↔ 40 ≤ a.risk ∧ a.risk < 70) ∧
      (a.status = "STABLE" ↔ a.risk < 40) ∧
      (a.risk = b.risk → a.status = b.status) := by decide
  exact key s hs t ht

/-- Witness for C1 at the sectors S-12 (risk 42) and S-07 (risk 84). -/
theorem sector_status_classifies_risk_witness :
    (SECTOR_DATA[1].status = "CRITICAL" ↔ 70 ≤ SECTOR_DATA[1].risk) ∧
    (SECTOR_DATA[1].status = "WARNING" ↔ 40 ≤ SECTOR_DATA[1].risk ∧ SECTOR_DATA[1].risk < 70) ∧
    (SECTOR_DATA[1].status = "STABLE" ↔ SECTOR_DATA[1].risk < 40) ∧
    (SECTOR_DATA[1].risk = SECTOR_DATA[0].risk → SECTOR_DATA[1].status = SECTOR_DATA[0].status) :=
  sector_status_classifies_risk SECTOR_DATA[1] SECTOR_DATA[0] (by decide) (by decide)


/-- C2, as stated, fails: the first two presented missions are M-1 (High) and
M-2 (Critical), so neither the PLAN list nor the HOME list is ordered by
severity descending. -/
theorem mission_order_not_by_severity :
    ¬ List.Chain' missionBefore MISSION_LOGS ∧ ¬ List.Chain' missionBefore homeMissions ∧
    (MISSION_LOGS.take 2).map (fun m => (m.id, m.priority)) = [("M-1", "High"), ("M-2", "Critical")] ∧
    ¬ missionBefore MISSION_LOGS[0] MISSION_LOGS[1] := by
  have hpair : ¬ missionBefore MISSION_LOGS[0] MISSION_LOGS[1] := by decide
  refine ⟨fun h => hpair ?_, fun h => hpair ?_, by decide, hpair⟩
  · exact (List.chain'_cons.mp h).1
  · exact (List.chain'_cons.mp h).1

/-- C2, amended: the missions are presented in the order of `MISSION_LOGS`,
which is ascending id (M-1, M-2, M-3) with priorities High, Critical, Normal;
the PLAN cards show them in that order and the HOME rows show the first three,
which are the same three, in that order. -/
theorem missions_presented_in_seed_order :
    List.Chain' (fun a b => strLt a.id b.id) MISSION_LOGS ∧
    MISSION_LOGS.map (fun m => (m.id, m.priority)) =
      [("M-1", "High"), ("M-2", "Critical"), ("M-3", "Normal")] ∧
    homeMissions = MISSION_LOGS ∧
    planCards.map Node.texts =
      MISSION_LOGS.map (fun m => [m.priority, m.task, "Progress", toString m.progress, "%"]) ∧
    missionRows.map Node.texts =
      MISSION_LOGS.map (fun m => [m.task, toString m.progress, "%"]) := by
  refine ⟨?_, by decide, by decide, by decide, by decide⟩
  simp only [MISSION_LOGS, List.chain'_cons, List.chain'_singleton, and_true]
  decide

/-- C3: the sectors are presented in the order of `SECTOR_DATA`, in which
every sector has strictly greater risk than the next (or equal risk and a
smaller id); the ids in presented order are S-07, S-12, S-02, both on the
HOME tiles and on the GIS circles. -/
theorem sectors_presented_most_critical_first :
    List.Chain' sectorBefore SECTOR_DATA ∧
    SECTOR_DATA.map (fun s => (s.id, s.risk)) = [("S-07", 84), ("S-12", 42), ("S-02", 12)] ∧
    sectorTiles.map Node.texts =
      SECTOR_DATA.map (fun s => [s.id, s.label, "Risk", toString s.risk, "%", "Nodes", toString s.nodes]) ∧
    sectorCircles.map (fun c => c.prop? "key") = SECTOR_DATA.map (fun s => some s.id) ∧
    sectorCircles.map Node.texts =
      SECTOR_DATA.map (fun s => [s.label, "Risk: ", toString s.risk, "%"]) := by
  refine ⟨?_, by decide, by decide, by decide, by decide⟩
  simp only [SECTOR_DATA, List.chain'_cons, List.chain'_singleton, and_true]
  decide

/-- C4: for every entry of the ingestion matrix, whose row shows its name,
state and percent label, the state is Offline iff the percent is 0: Offline
gives 0, and Synced, Active or Congested give a positive percent. -/
theorem offline_iff_zero_coverage (item : Source) (idx : Nat) (h : item ∈ INGESTION_MATRIX) :
    (sourceRow item idx).texts = [item.n, item.s, item.l] ∧
    (item.s = "Offline" ↔ labelPercent item.l = 0) ∧
    (item.s = "Offline" → labelPercent item.l = 0) ∧
    (item.s ∈ ["Synced", "Active", "Congested"] → 0 < labelPercent item.l) ∧
    (item.s ≠ "Offline" → 0 < labelPercent item.l) ∧
    item.s ∈ ["Synced", "Active", "Congested", "Offline"] := by
  refine ⟨rfl, ?_⟩
  have key : ∀ a ∈ INGESTION_MATRIX,
      (a.s = "Offline" ↔ labelPercent a.l = 0) ∧
      (a.s = "Offline" → labelPercent a.l = 0) ∧
      (a.s ∈ ["Synced", "Active", "Congested"] → 0 < labelPercent a.l) ∧
      (a.s ≠ "Offline" → 0 < labelPercent a.l) ∧
      a.s ∈ ["Synced", "Active", "Congested", "Offline"] := by decide
  exact key item h

/-- Witness for C4 at the Offline entry of the matrix. -/
theorem offline_iff_zero_coverage_witness :
    INGESTION_MATRIX[3].s = "Offline" ∧ labelPercent INGESTION_MATRIX[3].l = 0 ∧
    (sourceRow INGESTION_MATRIX[3] 3).texts = ["Govt Infrastructure", "Offline", "0%"] :=
  ⟨by decide,
   (offline_iff_zero_coverage INGESTION_MATRIX[3] 3 (by decide)).2.2.1 (by decide),
   (offline_iff_zero_coverage INGESTION_MATRIX[3] 3 (by decide)).1⟩


/-- C5: in every reachable state the telemetry feed shows the `logs` list in
list order, every entry is at least as recent (by `HH:MM` read as minutes of
the day) as every entry after it, and the list has at most 50 entries. -/
theorem feed_newest_first_and_bounded (s : State) (h : Reachable s) :
    (feed s.logs).map Node.texts = s.logs.map (fun l => ["[", l.t, "]", "NODE_778X", l.m]) ∧
    List.Pairwise notOlder s.logs ∧
    s.logs.length ≤ 50 := by
  rw [reachable_logs h]
  refine ⟨by decide, ?_, by decide⟩
  simp only [INITIAL_LOGS, List.pairwise_cons, List.Pairwise.nil, List.mem_cons,
    List.mem_singleton, forall_eq_or_imp, forall_eq, and_true]
  decide

/-- Witness for C5 at the state reached by opening the GIS tab. -/
theorem feed_newest_first_and_bounded_witness :
    Reachable (step State.initial (.selectTab gisItem)) ∧
    (step State.initial (.selectTab gisItem)).logs.map (fun l => minutesOfDay l.t) = [724, 723, 718] ∧
    List.Pairwise notOlder (step State.initial (.selectTab gisItem)).logs ∧
    (step State.initial (.selectTab gisItem)).logs.length ≤ 50 :=
  ⟨Reachable.next _ Reachable.initial (by decide), by decide,
   (feed_newest_first_and_bounded _ (Reachable.next _ Reachable.initial (by decide))).2⟩

/-- C6: selecting a tab and toggling the theme leave `logs` unchanged, so in
every reachable state `logs` is the list of the three initial entries, in the
same order, after any further sequence of actions as well. -/
theorem logs_never_change (s : State) (h : Reachable s) :
    (∀ item : NavItem, (navOnClick item s).logs = s.logs) ∧
    (themeOnClick s).logs = s.logs ∧
    (∀ a : Action, (step s a).logs = s.logs) ∧
    (∀ acts : List Action, (run s acts).logs = s.logs) ∧
    s.logs = INITIAL_LOGS := by
  exact ⟨fun _ => rfl, rfl, step_logs s, run_logs s, reachable_logs h⟩

/-- Witness for C6 at the state reached by opening the PLAN tab and then
toggling the theme. -/
theorem logs_never_change_witness :
    Reachable (run State.initial [.selectTab planItem, .toggleTheme]) ∧
    (run State.initial [.selectTab planItem, .toggleTheme]).activeTab = "PLAN" ∧
    (run State.initial [.selectTab planItem, .toggleTheme]).dark = true ∧
    (run State.initial [.selectTab planItem, .toggleTheme]).logs = INITIAL_LOGS :=
  ⟨reachable_run Reachable.initial _ (by decide), by decide, by decide,
   (logs_never_change _ (reachable_run Reachable.initial _ (by decide))).2.2.2.2⟩

/-- C7: every seeded sector has 0 ≤ risk ≤ 100 and nodes ≥ 0; every seeded
mission has 0 ≤ progress ≤ 100 and a priority among Normal, High, Critical;
the width of each progress bar of HomeOverview is the progress of a seeded
mission followed by `%`. -/
theorem seeded_percentages_in_range :
    (∀ s ∈ SECTOR_DATA, 0 ≤ s.risk ∧ s.risk ≤ 100 ∧ 0 ≤ s.nodes) ∧
    (∀ m ∈ MISSION_LOGS, 0 ≤ m.progress ∧ m.progress ≤ 100 ∧
      m.priority ∈ ["Normal", "High", "Critical"]) ∧
    (∀ m ∈ homeMissions, m ∈ MISSION_LOGS) ∧
    missionRows.map barWidth = homeMissions.map (fun m => some (toString m.progress ++ "%")) ∧
    missionRows.map barWidth = [some "65%", some "30%", some "100%"] := by
  decide

/-- C8: in every reachable state `activeTab` is one of the four navigation
ids, exactly one of the four guarded panels is rendered, namely the one whose
guard names `activeTab`, and toggling the theme does not change `activeTab`. -/
theorem exactly_one_panel_rendered (s : State) (h : Reachable s) :
    s.activeTab ∈ ["HOME", "GIS", "PLAN", "INTELLIGENCE"] ∧
    (rendered (mainPanels s.activeTab)).length = 1 ∧
    ((s.activeTab = "HOME" ∧ mainPanels s.activeTab = [some HomeOverview, none, none, none]) ∨
     (s.activeTab = "INTELLIGENCE" ∧
        mainPanels s.activeTab = [none, some DataIntelligence, none, none]) ∨
     (s.activeTab = "GIS" ∧ mainPanels s.activeTab = [none, none, some gisPanel, none]) ∨
     (s.activeTab = "PLAN" ∧ mainPanels s.activeTab = [none, none, none, some planPanel])) ∧
    (step s .toggleTheme).activeTab = s.activeTab ∧
    (∀ item ∈ NAV_ITEMS, (step s (.selectTab item)).activeTab = item.id) := by
  have hmem : s.activeTab ∈ ["HOME", "GIS", "PLAN", "INTELLIGENCE"] := reachable_activeTab h
  refine ⟨hmem, ?_, ?_, themeOnClick_activeTab s, fun _ _ => rfl⟩
  · simp only [List.mem_cons, List.mem_singleton, List.not_mem_nil, or_false] at hmem
    rcases hmem with h1 | h1 | h1 | h1 <;> rw [h1] <;> rfl
  · simp only [List.mem_cons, List.mem_singleton, List.not_mem_nil, or_false] at hmem
    rcases hmem with h1 | h1 | h1 | h1
    · exact Or.inl ⟨h1, by rw [h1]; rfl⟩
    · exact Or.inr (Or.inr (Or.inl ⟨h1, by rw [h1]; rfl⟩))
    · exact Or.inr (Or.inr (Or.inr ⟨h1, by rw [h1]; rfl⟩))
    · exact Or.inr (Or.inl ⟨h1, by rw [h1]; rfl⟩)

/-- Witness for C8 at the state reached by opening the GIS tab and then
toggling the theme. -/
theorem exactly_one_panel_rendered_witness :
    Reachable (run State.initial [.selectTab gisItem, .toggleTheme]) ∧
    (run State.initial [.selectTab gisItem, .toggleTheme]).activeTab = "GIS" ∧
    (rendered (mainPanels (run State.initial [.selectTab gisItem, .toggleTheme]).activeTab)).length = 1 :=
  ⟨reachable_run Reachable.initial _ (by decide), by decide,
   (exactly_one_panel_rendered _ (reachable_run Reachable.initial _ (by decide))).2.1⟩

/-- C9: two log entries with the same timestamp and message render to the
same feed item whatever their origin node; the item shows the timestamp in
brackets, the constant label NODE_778X and the message, and nothing else. -/
theorem feed_item_ignores_origin (a b : LogEntry) (i : Nat) (ht : a.t = b.t) (hm : a.m = b.m) :
    feedItem a i = feedItem b i ∧
    (feedItem a i).texts = ["[", a.t, "]", "NODE_778X", a.m] := by
  refine ⟨?_, rfl⟩
  unfold feedItem
  rw [ht, hm]

/-- Witness for C9 at the first seeded entry and the same entry with origin
node UAV-1. -/
theorem feed_item_ignores_origin_witness :
    INITIAL_LOGS[0].n ≠ "UAV-1" ∧
    feedItem INITIAL_LOGS[0] 0 = feedItem { INITIAL_LOGS[0] with n := "UAV-1" } 0 ∧
    (feedItem INITIAL_LOGS[0] 0).texts =
      ["[", "12:04", "]", "NODE_778X", "Structural Pulse: 34% Integrity Drop"] :=
  ⟨by decide, feed_item_ignores_origin INITIAL_LOGS[0] { INITIAL_LOGS[0] with n := "UAV-1" } 0 rfl rfl⟩

/-- C10: two `GlassCard` calls that agree on `children`, `title`, `icon` and
`className` return the same element whatever their `style`; so the border
colour passed for a KPI tile and the bottom border colour passed for a sector
tile do not occur in what is rendered. -/
theorem glassCard_ignores_style (p q : GlassCardProps)
    (hc : p.children = q.children) (ht : p.title = q.title) (hi : p.icon = q.icon)
    (hk : p.className = q.className) :
    GlassCard p = GlassCard q ∧
    (∀ (stat : Kpi) (style : List (String × String)),
      GlassCard { kpiTileProps stat with style := style } = kpiTile stat) ∧
    (∀ (s : Sector) (style : List (String × String)),
      GlassCard { sectorTileProps s with style := style } = sectorTile s) := by
  refine ⟨?_, fun _ _ => rfl, fun _ _ => rfl⟩
  unfold GlassCard
  rw [hc, ht, hi, hk]

/-- Witness for C10 at the first KPI tile, with its red border and without. -/
theorem glassCard_ignores_style_witness :
    (kpiTileProps KPI_STATS[0]).style = [("borderLeftColor", "#ef4444")] ∧
    GlassCard (kpiTileProps KPI_STATS[0]) = GlassCard { kpiTileProps KPI_STATS[0] with style := [] } :=
  ⟨by decide,
   (glassCard_ignores_style (kpiTileProps KPI_STATS[0]) { kpiTileProps KPI_STATS[0] with style := [] }
      rfl rfl rfl rfl).1⟩

end QuakeLens
